import Mathlib

/-!
Shallow embedding of `src/vot/experiment/__init__.py` (the experiment-execution
core of the VOT toolkit): the `Experiment` configuration object with its
realtime-runtime decision, transform pipeline and storage delegation, the
`EvaluationProgress` reporter, and the top-level `run_experiment` loop with its
abort-or-persist failure policy.

Python exceptions are modelled with explicit error values (`Except` / outcome
inductives); Python numbers with `ℚ` (division by zero is modelled explicitly,
since Python raises `ZeroDivisionError` where `ℚ` would silently return 0).
-/

namespace Vot

/-- Python errors that the embedded code can raise. `configError` models the
`RuntimeError` raised by `to_number` on a failed bound check; `zeroDivisionError`
models Python's `ZeroDivisionError` from `1 / 0.0`. -/
inductive PyError where
  | configError : String → PyError
  | zeroDivisionError : PyError
deriving DecidableEq, Repr

/-- Python `int(x)` on a number: truncation toward zero. -/
def pyInt (q : ℚ) : ℚ := if q < 0 then (⌈q⌉ : ℚ) else (⌊q⌋ : ℚ)

/-- Python `float(x)` on a number: the identity on the modelled rationals. -/
def pyFloat (q : ℚ) : ℚ := q

/-- Python `1 / x` on floats: raises `ZeroDivisionError` when `x = 0`. -/
def pydiv (a b : ℚ) : Except PyError ℚ :=
  if b = 0 then .error .zeroDivisionError else .ok (a / b)

/-- Modelled from the spec: `to_number` from `vot.utilities` is not under
`src/`. Per the spec it converts a raw configuration value and validates it
against a lower bound, failing fast with a configuration error when the
converted value is below the bound (`min_n`); the call sites in
`_get_runtime` pass `min_n = 0`. -/
def to_number (val : ℚ) (min_n : Option ℚ) (conversion : ℚ → ℚ) : Except PyError ℚ :=
  let n := conversion val
  match min_n with
  | some m => if n < m then .error (.configError ("parameter lower than minimum")) else .ok n
  | none => .ok n

/-- A tracker: an identifier plus the runtime its `runtime()` factory
produces (modelled as a value of an abstract type `ρ`). -/
structure Tracker (ρ : Type) where
  identifier : String
  runtime : ρ
deriving DecidableEq, Repr

/-- A sequence: an abstract payload plus the optional `"fps"` metadata entry
that `_get_runtime` reads via `sequence.metadata("fps", default)`. -/
structure Sequence (α : Type) where
  data : α
  fps : Option ℚ
deriving DecidableEq, Repr

/-- `sequence.metadata(key, default)`: only the `"fps"` key is consulted by
this core. -/
def Sequence.metadata (s : Sequence α) (key : String) (default : ℚ) : ℚ :=
  if key = ("fps") then s.fps.getD default else default

/-- The realtime configuration dictionary: the two keys `_get_runtime` reads,
each possibly absent (Python `dict.get` with a default). -/
structure RealtimeDict where
  grace : Option ℚ
  fps : Option ℚ
deriving DecidableEq, Repr

/-- An opaque configuration dictionary, used for the inert `noise` and
`inject` slots. -/
structure ConfigDict where
  entries : List (String × String)
deriving DecidableEq, Repr

/-- Modelled from the spec: the storage backend is not under `src/`. Per the
spec it is keyed by the tracker and the experiment's identifier (the
experiment `identifier` is "used as a namespace key into storage") and the
sequence; `open_log` yields a log handle for a tracker identifier. -/
structure Storage (α Res LogH : Type) where
  results : String → String → Sequence α → Res
  open_log : String → LogH

/-- The `Experiment` configuration object: identifier, storage, ordered
transformer list, optional realtime configuration, and the reserved
`noise`/`inject` slots (stored, commented "Not implemented yet"). -/
structure Experiment (α Res LogH : Type) where
  _identifier : String
  _storage : Storage α Res LogH
  _transformers : List (Sequence α → Sequence α)
  _realtime : Option RealtimeDict
  _noise : Option ConfigDict
  _inject : Option ConfigDict

/-- `Experiment.identifier` property. -/
def Experiment.identifier (e : Experiment α Res LogH) : String :=
  e._identifier

/-- The runtime value `_get_runtime` produces: either the tracker's plain
runtime, or a `RealtimeTrackerRuntime(inner, grace, interval)` pacing wrapper
around it. -/
inductive RuntimeVal (ρ : Type) where
  | plain : ρ → RuntimeVal ρ
  | realtimeWrapped : ρ → ℚ → ℚ → RuntimeVal ρ
deriving DecidableEq, Repr

/-- The observable outcome of one `_get_runtime` call: the returned runtime or
the raised error, together with how many times `tracker.runtime()` was
invoked (to express "before any tracker interaction"). -/
structure GetRuntimeResult (ρ : Type) where
  result : Except PyError (RuntimeVal ρ)
  runtimeCalls : Nat

/-- `Experiment._get_runtime`: if a realtime configuration is present, read
`grace` (default 0, int conversion, lower bound 0) and `fps` (default 20,
float conversion, lower bound 0) through `to_number`, compute
`interval = 1 / float(sequence.metadata("fps", fps))`, and wrap the tracker's
plain runtime; otherwise return the plain runtime. Errors raised by
`to_number` or by the division occur before `tracker.runtime()` is called. -/
def Experiment._get_runtime (e : Experiment α Res LogH) (tracker : Tracker ρ)
    (sequence : Sequence α) : GetRuntimeResult ρ :=
  match e._realtime with
  | some rt =>
    match to_number (rt.grace.getD 0) (some 0) pyInt with
    | .error err => ⟨.error err, 0⟩
    | .ok grace =>
      match to_number (rt.fps.getD 20) (some 0) pyFloat with
      | .error err => ⟨.error err, 0⟩
      | .ok fps =>
        match pydiv 1 (pyFloat (sequence.metadata ("fps") fps)) with
        | .error err => ⟨.error err, 0⟩
        | .ok interval => ⟨.ok (.realtimeWrapped tracker.runtime grace interval), 1⟩
  | none => ⟨.ok (.plain tracker.runtime), 1⟩

/-- `Experiment.results`: delegate to storage. The Python code passes
`(tracker, self, sequence)`; the spec-modelled storage keys on the tracker
identifier and the experiment identifier. -/
def Experiment.results (e : Experiment α Res LogH) (tracker : Tracker ρ)
    (sequence : Sequence α) : Res :=
  e._storage.results tracker.identifier e._identifier sequence

/-- `Experiment.log`: open a log sink for a tracker identifier via storage. -/
def Experiment.log (e : Experiment α Res LogH) (identifier : String) : LogH :=
  e._storage.open_log identifier

/-- `Experiment.transform`: `for transformer in self._transformers:
sequence = transformer(sequence)`. -/
def Experiment.transform (e : Experiment α Res LogH) (sequence : Sequence α) :
    Sequence α :=
  e._transformers.foldl (fun s t => t s) sequence

/-- The spec's description of the transform pipeline: "produce the sequence
obtained by applying each transformer in list order to the output of the
previous one (identity if the list is empty)", i.e. `Tn(...T2(T1(S)))`. -/
def applyInOrder : List (Sequence α → Sequence α) → Sequence α → Sequence α
  | [], s => s
  | t :: ts, s => applyInOrder ts (t s)

/-- `TrackerException`: the offending tracker, a message, and an optional
captured log blob. -/
structure TrackerException where
  tracker : Tracker Unit
  message : String
  log : Option String
deriving DecidableEq, Repr

/-- The outcome of one `experiment.execute(...)` call: normal return, a raised
`TrackerException`, or any other raised error (of an abstract type `ε`). -/
inductive ExecOutcome (ε : Type) where
  | ok : ExecOutcome ε
  | trackerFailure : TrackerException → ExecOutcome ε
  | otherError : ε → ExecOutcome ε
deriving DecidableEq, Repr

/-- An error escaping the run loop: a re-raised `TrackerException` or any
other propagated error. -/
inductive RunError (ε : Type) where
  | tracker : TrackerException → RunError ε
  | other : ε → RunError ε
deriving DecidableEq, Repr

/-- The progress bar underlying `EvaluationProgress`: we record the last
absolute value displayed. -/
structure Progress where
  desc : String
  total : Nat
  value : ℚ
deriving DecidableEq, Repr

/-- `Progress.update_absolute`. -/
def Progress.update_absolute (bar : Progress) (v : ℚ) : Progress :=
  { bar with value := v }

/-- `EvaluationProgress`: the progress adapter built by `run_experiment`; a
bar plus the count of finished sequences. -/
structure EvaluationProgress where
  bar : Progress
  _finished : Nat
deriving DecidableEq, Repr

/-- `EvaluationProgress.__init__(description, total)`. -/
def EvaluationProgress.init (description : String) (total : Nat) :
    EvaluationProgress :=
  ⟨⟨description, total, 0⟩, 0⟩

/-- `EvaluationProgress.__call__(progress)`:
`self.bar.update_absolute(self._finished + min(1, max(0, progress)))`. -/
def EvaluationProgress.call (ep : EvaluationProgress) (progress : ℚ) :
    EvaluationProgress :=
  { ep with bar := ep.bar.update_absolute ((ep._finished : ℚ) + min 1 (max 0 progress)) }

/-- `EvaluationProgress.push()`: increment `_finished` and display it. -/
def EvaluationProgress.push (ep : EvaluationProgress) : EvaluationProgress :=
  { ep with _finished := ep._finished + 1,
            bar := ep.bar.update_absolute ((ep._finished + 1 : Nat) : ℚ) }

/-- The observable trace of one `run_experiment` call:
`transformed` records, in order, the original sequences on which
`experiment.transform` was invoked; `executed` records, in order, the
(transformed) sequences passed to `experiment.execute`; `logs` records the
`(tracker identifier, captured log)` pairs written via `experiment.log`;
`finished` is the number of `progress.push()` calls (the final whole-unit
progress count); `error` is the error escaping the loop, if any. -/
structure RunResult (σ ε : Type) where
  transformed : List σ
  executed : List σ
  logs : List (String × String)
  finished : Nat
  error : Option (RunError ε)
deriving DecidableEq, Repr

/-- `run_experiment`, abstracted over the experiment's `transform` (which may
raise an error of type `ε` from a transformer) and the protocol-specific
`execute`. Per iteration: transform the sequence, call `execute`; on a
`TrackerException` log it, write its captured log if present, then re-raise
when `persist` is false; `progress.push()` runs when the iteration falls
through. Any non-`TrackerException` error propagates immediately. -/
def run_experiment (transform : σ → Except ε σ) (execute : σ → ExecOutcome ε)
    (persist : Bool) : List σ → RunResult σ ε
  | [] => ⟨[], [], [], 0, none⟩
  | s :: rest =>
    match transform s with
    | .error err => ⟨[s], [], [], 0, some (.other err)⟩
    | .ok s2 =>
      match execute s2 with
      | .ok =>
        let r := run_experiment transform execute persist rest
        ⟨s :: r.transformed, s2 :: r.executed, r.logs, r.finished + 1, r.error⟩
      | .otherError err => ⟨[s], [s2], [], 0, some (.other err)⟩
      | .trackerFailure te =>
        let written := match te.log with
          | some content => [(te.tracker.identifier, content)]
          | none => []
        if persist then
          let r := run_experiment transform execute persist rest
          ⟨s :: r.transformed, s2 :: r.executed, written ++ r.logs,
            r.finished + 1, r.error⟩
        else
          ⟨[s], [s2], written, 0, some (.tracker te)⟩

/-! Concrete objects used by witnesses and counterexamples. -/

/-- A trivial storage backend over `Nat`-payload sequences. -/
def trivialStorage : Storage Nat Unit Unit :=
  ⟨fun _ _ _ => (), fun _ => ()⟩

/-- A concrete tracker whose runtime is the string `"rt"`. -/
def exampleTracker : Tracker String :=
  ⟨"trk", "rt"⟩

/-- An experiment with no realtime configuration and no transformers. -/
def expNoRealtime : Experiment Nat Unit Unit :=
  ⟨"exp", trivialStorage, [], none, none, none⟩

/-- An experiment whose realtime configuration sets `fps` to 0 (and no
`grace` entry): the value 0 passes the `min_n = 0` lower-bound check. -/
def expZeroFps : Experiment Nat Unit Unit :=
  ⟨"exp", trivialStorage, [], some ⟨none, some 0⟩, none, none⟩

/-- An experiment whose realtime configuration is `{grace: 2, fps: 20}`. -/
def expRealtime : Experiment Nat Unit Unit :=
  ⟨"exp", trivialStorage, [], some ⟨some ((2 : ℤ) : ℚ), some 20⟩, none, none⟩

/-- An experiment whose realtime configuration has a negative `grace`. -/
def expNegGrace : Experiment Nat Unit Unit :=
  ⟨"exp", trivialStorage, [], some ⟨some ((-1 : ℤ) : ℚ), some 20⟩, none, none⟩

/-! Helper lemmas. -/

/-- `pyInt` is the identity on integer values. -/
theorem pyInt_intCast (n : ℤ) : pyInt (n : ℚ) = (n : ℚ) := by
  unfold pyInt
  split <;> simp

/-- Folding the transformer list equals the spec's nested in-order application. -/
theorem foldl_eq_applyInOrder (ts : List (Sequence α → Sequence α)) (s : Sequence α) :
    ts.foldl (fun s t => t s) s = applyInOrder ts s := by
  induction ts generalizing s with
  | nil => rfl
  | cons t ts ih => simpa [applyInOrder] using ih (t s)

/-- After `j` pushes, the finished counter and the displayed value are `j`. -/
theorem evalProgress_push_iterate (d : String) (total j : Nat) :
    (EvaluationProgress.push^[j] (EvaluationProgress.init d total))._finished = j ∧
    (EvaluationProgress.push^[j] (EvaluationProgress.init d total)).bar.value = (j : ℚ) := by
  induction j with
  | zero => exact ⟨rfl, rfl⟩
  | succ n ih =>
    rw [Function.iterate_succ_apply']
    refine ⟨?_, ?_⟩
    · simp [EvaluationProgress.push, ih.1]
    · simp [EvaluationProgress.push, Progress.update_absolute, ih.1]

/-- Shifting a `[0,1]` clamp by `j` equals clamping `j + p` to `[j, j+1]`. -/
theorem add_clamp_eq (j p : ℚ) : j + min 1 (max 0 p) = max j (min (j + 1) (j + p)) := by
  rcases le_total p 0 with h | h
  · rw [max_eq_left h, min_eq_right zero_le_one, add_zero,
      min_eq_right (by linarith), max_eq_left (by linarith)]
  · rw [max_eq_right h]
    rcases le_total p 1 with h2 | h2
    · rw [min_eq_right h2, min_eq_right (by linarith), max_eq_right (by linarith)]
    · rw [min_eq_left h2, min_eq_left (by linarith), max_eq_right (by linarith)]

/-! Claim theorems. -/

/-- C6: for every transformer list and sequence, `transform` applies the
transformers left to right in list order (`Tn(...T2(T1(S)))`), and for the
empty transformer list `transform` is the identity. -/
theorem C6_transform_left_to_right (e : Experiment α Res LogH) (s : Sequence α) :
    e.transform s = applyInOrder e._transformers s ∧
      (e._transformers = [] → e.transform s = s) := by
  refine ⟨foldl_eq_applyInOrder e._transformers s, fun h => ?_⟩
  simp [Experiment.transform, h]

/-- Witness for C6 at a concrete experiment with an empty transformer list. -/
theorem C6_transform_left_to_right_witness :
    expNoRealtime.transform ⟨5, none⟩ = ⟨5, none⟩ :=
  (C6_transform_left_to_right expNoRealtime ⟨5, none⟩).2 rfl

/-- C7: when the realtime configuration is absent, `_get_runtime` returns
exactly the tracker's plain runtime, with no pacing wrapper, and calls
`tracker.runtime()` once. -/
theorem C7_none_realtime_plain (e : Experiment α Res LogH) (tracker : Tracker ρ)
    (sequence : Sequence α) (h : e._realtime = none) :
    e._get_runtime tracker sequence = ⟨.ok (.plain tracker.runtime), 1⟩ := by
  simp [Experiment._get_runtime, h]

/-- Witness for C7 at a concrete experiment with `realtime = None`. -/
theorem C7_none_realtime_plain_witness :
    expNoRealtime._get_runtime exampleTracker ⟨0, none⟩
      = ⟨.ok (.plain ("rt")), 1⟩ :=
  C7_none_realtime_plain expNoRealtime exampleTracker ⟨0, none⟩ rfl

/-- C9: varying the `noise` and `inject` slots of an otherwise-equal
experiment changes none of the observable operations: `identifier`,
`_get_runtime`, `transform`, `results` and `log` all agree. -/
theorem C9_noise_inject_inert (e : Experiment α Res LogH)
    (n1 n2 i1 i2 : Option ConfigDict) (tracker : Tracker ρ)
    (sequence : Sequence α) (ident : String) :
    ({ e with _noise := n1, _inject := i1 } : Experiment α Res LogH).identifier
        = ({ e with _noise := n2, _inject := i2 } : Experiment α Res LogH).identifier ∧
    ({ e with _noise := n1, _inject := i1 } : Experiment α Res LogH)._get_runtime tracker sequence
        = ({ e with _noise := n2, _inject := i2 } : Experiment α Res LogH)._get_runtime tracker sequence ∧
    ({ e with _noise := n1, _inject := i1 } : Experiment α Res LogH).transform sequence
        = ({ e with _noise := n2, _inject := i2 } : Experiment α Res LogH).transform sequence ∧
    ({ e with _noise := n1, _inject := i1 } : Experiment α Res LogH).results tracker sequence
        = ({ e with _noise := n2, _inject := i2 } : Experiment α Res LogH).results tracker sequence ∧
    ({ e with _noise := n1, _inject := i1 } : Experiment α Res LogH).log ident
        = ({ e with _noise := n2, _inject := i2 } : Experiment α Res LogH).log ident :=
  ⟨rfl, rfl, rfl, rfl, rfl⟩

/-- C10: the division-by-zero branch of the interval computation in
`_get_runtime` is reachable: with a configured `fps` of 0 (accepted by the
`min_n = 0` lower-bound check) and a sequence with no fps metadata, the call
fails with `ZeroDivisionError` — not with a configuration error — before
`tracker.runtime()` is called. -/
theorem C10_division_by_zero_reachable :
    (expZeroFps._get_runtime exampleTracker ⟨0, none⟩).result
        = .error .zeroDivisionError ∧
    (expZeroFps._get_runtime exampleTracker ⟨0, none⟩).runtimeCalls = 0 :=
  ⟨rfl, rfl⟩

/-- C3 counterexample: the claim fails for `fps = 0`, which is non-positive
yet passes the `min_n = 0` validation: with realtime `{fps: 0}` and a
sequence declaring fps 30, `_get_runtime` raises no configuration error at
all and `tracker.runtime()` is called. -/
theorem C3_counterexample :
    (expZeroFps._get_runtime exampleTracker ⟨0, some 30⟩).result
        = .ok (.realtimeWrapped ("rt") 0 (1 / 30)) ∧
    (expZeroFps._get_runtime exampleTracker ⟨0, some 30⟩).runtimeCalls = 1 :=
  ⟨rfl, rfl⟩

/-- C3 amended: a negative (integer-valued) `grace`, or a negative `fps`
alongside a valid `grace`, makes `_get_runtime` fail with a
configuration-validation error before `tracker.runtime()` is called; a zero
`fps` instead passes the lower-bound check. -/
theorem C3_negative_config_fails (e : Experiment α Res LogH) (tracker : Tracker ρ)
    (sequence : Sequence α) (rt : RealtimeDict) (hrt : e._realtime = some rt)
    (h : (∃ n : ℤ, n < 0 ∧ rt.grace.getD 0 = (n : ℚ)) ∨
      (0 ≤ pyInt (rt.grace.getD 0) ∧ rt.fps.getD 20 < 0)) :
    (∃ msg, (e._get_runtime tracker sequence).result = .error (.configError msg)) ∧
    (e._get_runtime tracker sequence).runtimeCalls = 0 := by
  rcases h with ⟨n, hn, hg⟩ | ⟨hg, hf⟩
  · have : pyInt (rt.grace.getD 0) < 0 := by
      rw [hg, pyInt_intCast]
      exact_mod_cast hn
    simp [Experiment._get_runtime, hrt, to_number, this]
  · have hg2 : ¬ pyInt (rt.grace.getD 0) < 0 := not_lt.mpr hg
    simp [Experiment._get_runtime, hrt, to_number, hg2, pyFloat, hf]

/-- Witness for C3's amended theorem at `grace = -1`. -/
theorem C3_negative_config_fails_witness :
    (∃ msg, (expNegGrace._get_runtime exampleTracker ⟨0, none⟩).result
        = .error (.configError msg)) ∧
    (expNegGrace._get_runtime exampleTracker ⟨0, none⟩).runtimeCalls = 0 :=
  C3_negative_config_fails expNegGrace exampleTracker ⟨0, none⟩
    ⟨some ((-1 : ℤ) : ℚ), some 20⟩ rfl (Or.inl ⟨-1, by norm_num, rfl⟩)

/-- C4: with realtime `{grace: g, fps: f}` and valid values, the interval is
`1/f` when the sequence declares no fps, and `1/sf` (regardless of `f`) when
it declares fps `sf`; the result is the pacing wrapper over the tracker's
plain runtime with parameters `(g, interval)`. -/
theorem C4_realtime_interval (e : Experiment α Res LogH) (tracker : Tracker ρ)
    (g : ℤ) (f : ℚ) (hrt : e._realtime = some ⟨some (g : ℚ), some f⟩)
    (hg : 0 ≤ g) :
    (∀ s : Sequence α, s.fps = none → 0 < f →
        e._get_runtime tracker s
          = ⟨.ok (.realtimeWrapped tracker.runtime (g : ℚ) (1 / f)), 1⟩) ∧
    (∀ (s : Sequence α) (sf : ℚ), s.fps = some sf → 0 ≤ f → sf ≠ 0 →
        e._get_runtime tracker s
          = ⟨.ok (.realtimeWrapped tracker.runtime (g : ℚ) (1 / sf)), 1⟩) := by
  have hgq : ¬ pyInt ((g : ℤ) : ℚ) < 0 := by
    rw [pyInt_intCast]
    exact_mod_cast not_lt.mpr hg
  have hgz : ¬ g < 0 := not_lt.mpr hg
  constructor
  · intro s hs hf
    simp [Experiment._get_runtime, hrt, to_number, hgq, hgz, pyInt_intCast, pyFloat,
      not_lt.mpr hf.le, Sequence.metadata, hs, pydiv, hf.ne.symm]
  · intro s sf hs hf hsf
    simp [Experiment._get_runtime, hrt, to_number, hgq, hgz, pyInt_intCast, pyFloat,
      not_lt.mpr hf, Sequence.metadata, hs, pydiv, hsf]

/-- Witness for C4 at `{grace: 2, fps: 20}`, with and without sequence fps. -/
theorem C4_realtime_interval_witness :
    expRealtime._get_runtime exampleTracker ⟨0, none⟩
      = ⟨.ok (.realtimeWrapped ("rt") ((2 : ℤ) : ℚ) (1 / 20)), 1⟩ ∧
    expRealtime._get_runtime exampleTracker ⟨0, some 30⟩
      = ⟨.ok (.realtimeWrapped ("rt") ((2 : ℤ) : ℚ) (1 / 30)), 1⟩ :=
  ⟨(C4_realtime_interval expRealtime exampleTracker 2 20 rfl (by norm_num)).1
      ⟨0, none⟩ rfl (by norm_num),
   (C4_realtime_interval expRealtime exampleTracker 2 20 rfl (by norm_num)).2
      ⟨0, some 30⟩ 30 rfl (by norm_num) (by norm_num)⟩

/-- C5: after `j` whole sequences have been pushed the displayed progress is
`j`, and a fractional callback value `p` received in that state is displayed
as `clamp(j + p, j, j + 1)`, so callback overshoot or undershoot never moves
the displayed total outside `[j, j+1]`. -/
theorem C5_progress_clamped (d : String) (total j : Nat) (p : ℚ) :
    (EvaluationProgress.push^[j] (EvaluationProgress.init d total)).bar.value = (j : ℚ) ∧
    ((EvaluationProgress.push^[j] (EvaluationProgress.init d total)).call p).bar.value
      = max (j : ℚ) (min ((j : ℚ) + 1) ((j : ℚ) + p)) := by
  obtain ⟨hf, hv⟩ := evalProgress_push_iterate d total j
  refine ⟨hv, ?_⟩
  simp only [EvaluationProgress.call, Progress.update_absolute, hf]
  exact add_clamp_eq (j : ℚ) p

/-- A concrete tracker failure with a captured log blob. -/
def exampleTE : TrackerException :=
  ⟨⟨"trk", ()⟩, "tracker crashed", some ("captured output")⟩

/-- A concrete `execute` behaviour: fails with `exampleTE` on sequence 2,
succeeds elsewhere. -/
def exampleExecute : Nat → ExecOutcome String :=
  fun n => if n = 2 then .trackerFailure exampleTE else .ok

/-- A concrete `execute` behaviour raising a non-tracker error on 2. -/
def exampleExecuteOther : Nat → ExecOutcome String :=
  fun n => if n = 2 then .otherError ("type error") else .ok

/-- C1: with `persist = false`, if sequence `k = |pre| + 1` is the first
whose `execute` raises a tracker failure, then exactly the sequences of
`pre ++ [s]` are transformed and executed, in order, the loop re-raises that
same failure, and the remaining sequences are never transformed or
executed. -/
theorem C1_abort_on_first_tracker_failure (tf : σ → σ) (execute : σ → ExecOutcome ε)
    (pre : List σ) (s : σ) (post : List σ) (te : TrackerException)
    (hpre : ∀ x ∈ pre, execute (tf x) = .ok)
    (hs : execute (tf s) = .trackerFailure te) :
    run_experiment (fun x => Except.ok (tf x)) execute false (pre ++ s :: post)
      = ⟨pre ++ [s], (pre ++ [s]).map tf,
          (match te.log with | some c => [(te.tracker.identifier, c)] | none => []),
          pre.length, some (.tracker te)⟩ := by
  induction pre with
  | nil => simp [run_experiment, hs]
  | cons x xs ih =>
    have hx : execute (tf x) = .ok := hpre x (by simp)
    have ih2 := ih (fun y hy => hpre y (by simp [hy]))
    simp [run_experiment, hx, ih2]

/-- Witness for C1: three sequences, failure on the second, `persist = false`:
only sequences 1 and 2 are attempted, the failure escapes, one push happened. -/
theorem C1_abort_on_first_tracker_failure_witness :
    run_experiment (fun x => Except.ok (id x)) exampleExecute false ([1] ++ 2 :: [3])
      = ⟨[1] ++ [2], ([1] ++ [2]).map id,
          (match exampleTE.log with
            | some c => [(exampleTE.tracker.identifier, c)] | none => []),
          [1].length, some (.tracker exampleTE)⟩ :=
  C1_abort_on_first_tracker_failure id exampleExecute [1] 2 [3] exampleTE
    (by decide) (by decide)

/-- C2: with `persist = true` and no non-tracker errors, every sequence is
transformed and executed exactly once, in batch order; no tracker failure
escapes the loop and the progress counter ends at the batch length. -/
theorem C2_persist_attempts_all (tf : σ → σ) (execute : σ → ExecOutcome ε)
    (sequences : List σ)
    (h : ∀ x ∈ sequences,
      execute (tf x) = .ok ∨ ∃ te, execute (tf x) = .trackerFailure te) :
    (run_experiment (fun x => Except.ok (tf x)) execute true sequences).executed
        = sequences.map tf ∧
    (run_experiment (fun x => Except.ok (tf x)) execute true sequences).transformed
        = sequences ∧
    (run_experiment (fun x => Except.ok (tf x)) execute true sequences).error = none ∧
    (run_experiment (fun x => Except.ok (tf x)) execute true sequences).finished
        = sequences.length := by
  induction sequences with
  | nil => exact ⟨rfl, rfl, rfl, rfl⟩
  | cons x xs ih =>
    obtain ⟨h1, h2, h3, h4⟩ := ih (fun y hy => h y (by simp [hy]))
    rcases h x (by simp) with hx | ⟨te, hx⟩ <;>
      simp [run_experiment, hx, h1, h2, h3, h4]

/-- Witness for C2: three sequences, failure on the second, `persist = true`:
all three executed in order, no escaping error, final progress 3. -/
theorem C2_persist_attempts_all_witness :
    (run_experiment (fun x => Except.ok (id x)) exampleExecute true [1, 2, 3]).executed
        = [1, 2, 3].map id ∧
    (run_experiment (fun x => Except.ok (id x)) exampleExecute true [1, 2, 3]).transformed
        = [1, 2, 3] ∧
    (run_experiment (fun x => Except.ok (id x)) exampleExecute true [1, 2, 3]).error = none ∧
    (run_experiment (fun x => Except.ok (id x)) exampleExecute true [1, 2, 3]).finished
        = [1, 2, 3].length :=
  C2_persist_attempts_all id exampleExecute [1, 2, 3] (by
    intro x hx
    simp only [List.mem_cons, List.not_mem_nil, or_false] at hx
    rcases hx with rfl | rfl | rfl
    · exact Or.inl rfl
    · exact Or.inr ⟨exampleTE, rfl⟩
    · exact Or.inl rfl)

/-- C8: an error raised during `transform` or `execute` that is not a tracker
failure propagates uncaught to the caller, for both values of `persist`, even
when earlier sequences succeeded or had their tracker failures swallowed. -/
theorem C8_non_tracker_errors_propagate (transform : σ → Except ε σ)
    (execute : σ → ExecOutcome ε) (persist : Bool)
    (pre : List σ) (s : σ) (post : List σ) (err : ε)
    (hpre : ∀ x ∈ pre, ∃ y, transform x = .ok y ∧
        (execute y = .ok ∨ (persist = true ∧ ∃ te, execute y = .trackerFailure te)))
    (hs : transform s = .error err ∨
        ∃ y, transform s = .ok y ∧ execute y = .otherError err) :
    (run_experiment transform execute persist (pre ++ s :: post)).error
      = some (.other err) := by
  induction pre with
  | nil =>
    rcases hs with h | ⟨y, hy, hexec⟩
    · simp [run_experiment, h]
    · simp [run_experiment, hy, hexec]
  | cons x xs ih =>
    obtain ⟨y, hy, hcase⟩ := hpre x (by simp)
    have ih2 := ih (fun z hz => hpre z (by simp [hz]))
    rcases hcase with hok | ⟨hp, te, hte⟩
    · simp [run_experiment, hy, hok, ih2]
    · subst hp
      simp [run_experiment, hy, hte, ih2]

/-- Witness for C8: a non-tracker error from `execute` on the second of three
sequences escapes the loop even with `persist = true`. -/
theorem C8_non_tracker_errors_propagate_witness :
    (run_experiment (fun x => Except.ok (id x)) exampleExecuteOther true
        ([1] ++ 2 :: [3])).error = some (.other ("type error")) :=
  C8_non_tracker_errors_propagate (fun x => Except.ok (id x)) exampleExecuteOther true
    [1] 2 [3] ("type error")
    (by
      intro x hx
      simp only [List.mem_singleton] at hx
      subst hx
      exact ⟨1, rfl, Or.inl rfl⟩)
    (Or.inr ⟨2, rfl, rfl⟩)

end Vot
